import Mathlib

set_option autoImplicit false

namespace Jintaro

/-! Shallow embedding of the jintaro repository (python-jintaro), centred on
`src/jintaro/jinja/recursive_mapping.py`, `src/jintaro/jinja/recursive_template.py`
and `src/jintaro/jintaro.py`.  Python machine-level details (unicode beyond ASCII,
float literals) that no verified property depends on are noted at the definition
they would affect. -/

/-- Values a jintaro variable slot can hold after resolution: the Python types
produced by `RecursiveMapping._evaluate_string` (str, int, bool, None, list, dict)
plus the `StrictUndefined` sentinel returned for missing keys
(`recursive_mapping.py` line 34).  Floats are omitted: no claim exercises them. -/
inductive Value where
  | vstr (s : String)
  | vint (n : Int)
  | vbool (b : Bool)
  | vnone
  | vlist (xs : List Value)
  | vdict (xs : List (Value × Value))
  | vundefined (name : String)

/-- ASCII whitespace, as recognised by Python str.strip() on the inputs at hand. -/
def isSpaceChar (c : Char) : Bool :=
  c = ' ' || c = '\t' || c = '\n' || c = '\r'

/-- Models Python str.strip(): drop whitespace from both ends. -/
def pyStrip (s : String) : String :=
  String.mk (((s.data.dropWhile isSpaceChar).reverse.dropWhile isSpaceChar).reverse)

/-- Drops leading whitespace of a character stream (parser helper). -/
def skipWs (cs : List Char) : List Char :=
  cs.dropWhile isSpaceChar

/-- Digit run to a natural number (parser helper). -/
def digitsToNat (ds : List Char) : Nat :=
  ds.foldl (fun a c => a * 10 + (c.toNat - '0'.toNat)) 0

/-- Matches a literal keyword at the head of the stream (parser helper). -/
def stripKeyword (kw : List Char) (cs : List Char) : Option (List Char) :=
  if cs.take kw.length = kw then some (cs.drop kw.length) else none

mutual

/-- Models the grammar accepted by ast.literal_eval as used by
`RecursiveMapping._evaluate_string` (`recursive_mapping.py` lines 80-89):
integers, True/False/None, quoted strings (escape sequences unmodelled),
lists and dicts.  Float and tuple literals are omitted; no claim depends on
them.  Fuel bounds the recursion depth; the entry point supplies enough. -/
def parseVal : Nat → List Char → Option (Value × List Char)
  | 0, _ => none
  | f+1, cs0 =>
    let cs := skipWs cs0
    match stripKeyword "True".data cs with
    | some rest => some (.vbool true, rest)
    | none =>
    match stripKeyword "False".data cs with
    | some rest => some (.vbool false, rest)
    | none =>
    match stripKeyword "None".data cs with
    | some rest => some (.vnone, rest)
    | none =>
    match cs with
    | [] => none
    | c :: rest =>
      if c = '[' then
        match skipWs rest with
        | ']' :: rest2 => some (.vlist [], rest2)
        | _ =>
          match parseElems f rest with
          | some (xs, rest2) => some (.vlist xs, rest2)
          | none => none
      else if c = '\x7b' then
        match skipWs rest with
        | '\x7d' :: rest2 => some (.vdict [], rest2)
        | _ =>
          match parsePairs f rest with
          | some (xs, rest2) => some (.vdict xs, rest2)
          | none => none
      else if c = '\'' || c = '"' then
        let body := rest.takeWhile (fun d => d ≠ c)
        match rest.dropWhile (fun d => d ≠ c) with
        | _ :: rest3 => some (.vstr (String.mk body), rest3)
        | [] => none
      else if c = '-' then
        match skipWs rest with
        | [] => none
        | d :: ds =>
          if d.isDigit then
            some (.vint (-(digitsToNat ((d :: ds).takeWhile Char.isDigit) : Int)),
              (d :: ds).dropWhile Char.isDigit)
          else none
      else if c.isDigit then
        some (.vint (digitsToNat (cs.takeWhile Char.isDigit)), cs.dropWhile Char.isDigit)
      else none

/-- Comma-separated list elements up to the closing bracket (literal_eval model). -/
def parseElems : Nat → List Char → Option (List Value × List Char)
  | 0, _ => none
  | f+1, cs =>
    match parseVal f cs with
    | none => none
    | some (v, rest) =>
      match skipWs rest with
      | ']' :: rest2 => some ([v], rest2)
      | ',' :: rest2 =>
        match skipWs rest2 with
        | ']' :: rest3 => some ([v], rest3)
        | _ =>
          match parseElems f rest2 with
          | some (xs, rest3) => some (v :: xs, rest3)
          | none => none
      | _ => none

/-- Comma-separated key: value pairs up to the closing brace (literal_eval model). -/
def parsePairs : Nat → List Char → Option (List (Value × Value) × List Char)
  | 0, _ => none
  | f+1, cs =>
    match parseVal f cs with
    | none => none
    | some (k, rest) =>
      match skipWs rest with
      | ':' :: rest2 =>
        match parseVal f rest2 with
        | none => none
        | some (v, rest3) =>
          match skipWs rest3 with
          | '\x7d' :: rest4 => some ([(k, v)], rest4)
          | ',' :: rest4 =>
            match skipWs rest4 with
            | '\x7d' :: rest5 => some ([(k, v)], rest5)
            | _ =>
              match parsePairs f rest4 with
              | some (xs, rest5) => some ((k, v) :: xs, rest5)
              | none => none
          | _ => none
      | _ => none

end

/-- Models ast.literal_eval on a whole string: parse one literal and require
only whitespace to remain; any leftover input is a SyntaxError (None here). -/
def literal_eval (s : String) : Option Value :=
  match parseVal (2 * s.length + 2) s.data with
  | some (v, rest) => if skipWs rest = [] then some v else none
  | none => none

/-- Models distutils.util.strtobool composed with bool(): lower-cases the
input and accepts the permissive truthy/falsy tokens; anything else is a
ValueError (None here).  Source: used at `recursive_mapping.py` line 86 and
`jintaro.py` line 341. -/
def strtobool (s : String) : Option Bool :=
  let v := String.mk (s.data.map Char.toLower)
  if v = "y" || v = "yes" || v = "t" || v = "true" || v = "on" || v = "1" then some true
  else if v = "n" || v = "no" || v = "f" || v = "false" || v = "off" || v = "0" then some false
  else none

/-- Embeds `RecursiveMapping._evaluate_string` (`recursive_mapping.py` lines 70-89):
try literal_eval on the stripped string, then strtobool on the stripped string,
else return the original string unchanged. -/
def evaluate_string (s : String) : Value :=
  match literal_eval (pyStrip s) with
  | some v => v
  | none =>
    match strtobool (pyStrip s) with
    | some b => .vbool b
    | none => .vstr s

/-- Embeds the coercion step of `RecursiveMapping.__getitem__`
(`recursive_mapping.py` lines 40-43): if the rendered string differs from the
original template text, evaluate it; otherwise keep the original as a plain str. -/
def coerce (original rendered : String) : Value :=
  if rendered = original then .vstr original else evaluate_string rendered

/-- Boolean infix test on character streams (helper for the template classifier). -/
def hasInfix (pat : List Char) : List Char → Bool
  | [] => decide (pat = [])
  | c :: rest => (decide ((c :: rest).take pat.length = pat)) || hasInfix pat rest

/-- Embeds `RecursiveMapping._is_possibly_template` (`recursive_mapping.py`
lines 91-105) applied to a string: true iff one of the three Jinja start
markers occurs as a raw substring. -/
def is_possibly_template (s : String) : Bool :=
  ["\x7b%", "\x7b\x7b", "\x7b#"].any (fun m => hasInfix m.data s.data)

/-- Character class of the regex [^0-9a-zA-Z_] used by process_header. -/
def isWordChar (c : Char) : Bool :=
  c.isDigit || ('a' ≤ c && c ≤ 'z') || ('A' ≤ c && c ≤ 'Z') || c = '_'

/-- Character class of the regex ^[^a-zA-Z_]+ used by process_header. -/
def isIdentStart (c : Char) : Bool :=
  ('a' ≤ c && c ≤ 'z') || ('A' ≤ c && c ≤ 'Z') || c = '_'

/-- Embeds `process_header` (`jintaro.py` lines 213-218): lower-case, replace
every character outside [0-9a-zA-Z_] with an underscore (re.sub replaces each
matching character, one underscore per character), then strip the leading run
of characters outside [a-zA-Z_]. -/
def process_header (s : String) : String :=
  let lowered := s.data.map Char.toLower
  let replaced := lowered.map (fun c => if isWordChar c then c else '_')
  String.mk (replaced.dropWhile (fun c => !isIdentStart c))

/-- Collapses runs of bad characters into a single underscore; the flag records
whether the previous character was replaced (helper for the spec-side variant). -/
def collapseRuns : Bool → List Char → List Char
  | _, [] => []
  | prevBad, c :: rest =>
    if isWordChar c then c :: collapseRuns false rest
    else if prevBad then collapseRuns true rest
    else '_' :: collapseRuns true rest

/-- Modelled from the spec for comparison with process_header (claim C9): the
spec says each RUN of non-alphanumeric/underscore characters is replaced with a
single underscore before stripping leading non-letter/underscore characters. -/
def process_header_specmodel (s : String) : String :=
  let lowered := s.data.map Char.toLower
  let replaced := collapseRuns false lowered
  String.mk (replaced.dropWhile (fun c => !isIdentStart c))

/-- Errors the embedded renderer can raise: a dict KeyError (never actually
produced by RecursiveMapping, see claim C10), Jinja's UndefinedError raised by
StrictUndefined at the point of use, a Python TypeError from a malformed
comparison, and the CPython RecursionError that bounds unbounded mutual
template recursion (the source has no cycle detection; CPython's recursion
limit is modelled as explicit fuel). -/
inductive Err where
  | keyError
  | undefinedError (name : String)
  | typeError
  | recursionError
deriving DecidableEq, Repr

/-- A compiled micro-Jinja template: the segment forms exercised by the claims.
lit is literal text, var is an expression statement printing one
name, gtVar models the comparison expression of the skip-rule example
(name greater than a constant, printed as Python str of the bool). -/
inductive Seg where
  | lit (s : String)
  | var (name : String)
  | gtVar (name : String) (n : Int)
deriving DecidableEq, Repr

/-- An unresolved template entry keeps its raw source text (the
UnresolvedString) together with its compiled form; the source text is what
the classifier saw and what coercion compares against. -/
structure Tpl where
  src : String
  segs : List Seg
deriving DecidableEq, Repr

/-- One slot of RecursiveMapping.__data: either a string classified as possibly
a template (UnresolvedString, not yet rendered) or a plain stored value —
literal values and memoized render results are stored identically
(`recursive_mapping.py` line 44 writes the coerced result straight into __data). -/
inductive Entry where
  | unresolved (t : Tpl)
  | val (v : Value)

/-- The resolution-side model of RecursiveMapping: the private __data dict as
an association list.  (The context back-reference and nested child mappings are
modelled separately in the construction-side model CMap below; no resolution
claim exercises them.) -/
structure RMap where
  data : List (String × Entry)

/-- Association-list lookup (Python dict membership plus indexing on __data). -/
def lookupE : List (String × Entry) → String → Option Entry
  | [], _ => none
  | (k', e) :: rest, k => if k' = k then some e else lookupE rest k

/-- Association-list update, preserving insertion order like a Python dict. -/
def setE : List (String × Entry) → String → Entry → List (String × Entry)
  | [], k, e => [(k, e)]
  | (k', e') :: rest, k, e =>
    if k' = k then (k, e) :: rest else (k', e') :: setE rest k e

mutual

/-- Python repr of a value (used for list/dict elements inside str output). -/
def pyRepr : Value → String
  | .vstr s => "'" ++ s ++ "'"
  | .vint n => toString n
  | .vbool true => "True"
  | .vbool false => "False"
  | .vnone => "None"
  | .vundefined name => "Undefined:" ++ name
  | .vlist xs => "[" ++ pyReprList xs ++ "]"
  | .vdict xs => "\x7b" ++ pyReprPairs xs ++ "\x7d"

/-- Comma-joined reprs of list elements. -/
def pyReprList : List Value → String
  | [] => ""
  | [x] => pyRepr x
  | x :: y :: rest => pyRepr x ++ ", " ++ pyReprList (y :: rest)

/-- Comma-joined reprs of dict items. -/
def pyReprPairs : List (Value × Value) → String
  | [] => ""
  | [(k, v)] => pyRepr k ++ ": " ++ pyRepr v
  | (k, v) :: y :: rest => pyRepr k ++ ": " ++ pyRepr v ++ ", " ++ pyReprPairs (y :: rest)

end

/-- Python str() as Jinja applies it when emitting a value into rendered
output.  StrictUndefined raises UndefinedError on any concrete use, including
string conversion — this is the strict-undefined behaviour configured in
`environment.py` lines 7-11. -/
def pyStr : Value → Except Err String
  | .vundefined name => .error (.undefinedError name)
  | .vstr s => .ok s
  | v => .ok (pyRepr v)

/-- Python bool() truthiness; StrictUndefined raises at the point of use. -/
def truthy : Value → Except Err Bool
  | .vbool b => .ok b
  | .vint n => .ok (decide (n ≠ 0))
  | .vstr s => .ok (decide (s ≠ ""))
  | .vnone => .ok false
  | .vlist xs => .ok (!xs.isEmpty)
  | .vdict xs => .ok (!xs.isEmpty)
  | .vundefined name => .error (.undefinedError name)

/-- Renders a compiled segment list against the mapping, resolving each
variable through the supplied lookup (the mapping's own render context, whose
local and global scopes are empty for renders started from
RecursiveMapping.__getitem__ — `recursive_template.py` lines 33-39).  The Nat
component counts template-engine invocations performed by nested resolutions;
errors propagate (render_recursive re-raises via handle_exception). -/
def renderSegs (get : RMap → String → (Except Err (Value × RMap)) × Nat) :
    List Seg → RMap → (Except Err (String × RMap)) × Nat
  | [], m => (.ok ("", m), 0)
  | .lit s :: rest, m =>
    match renderSegs get rest m with
    | (.ok (t, m'), n) => (.ok (s ++ t, m'), n)
    | (.error e, n) => (.error e, n)
  | .var k :: rest, m =>
    match get m k with
    | (.ok (v, m'), n) =>
      match pyStr v with
      | .ok s =>
        match renderSegs get rest m' with
        | (.ok (t, m''), n') => (.ok (s ++ t, m''), n + n')
        | (.error e, n') => (.error e, n + n')
      | .error e => (.error e, n)
    | (.error e, n) => (.error e, n)
  | .gtVar k c :: rest, m =>
    match get m k with
    | (.ok (.vint i, m'), n) =>
      match renderSegs get rest m' with
      | (.ok (t, m''), n') =>
        (.ok ((if decide (i > c) then "True" else "False") ++ t, m''), n + n')
      | (.error e, n') => (.error e, n + n')
    | (.ok (.vundefined name, _), n) => (.error (.undefinedError name), n)
    | (.ok (_, _), n) => (.error .typeError, n)
    | (.error e, n) => (.error e, n)

/-- Embeds `RecursiveMapping.__getitem__` (`recursive_mapping.py` lines 32-45).
A missing key yields the StrictUndefined sentinel (no KeyError).  A plain value
is returned directly.  An UnresolvedString is rendered through the mapping's
own recursive render context (one engine invocation, counted), the result is
coerced against the original source text, and the coerced value is written
back into the slot; a failing render propagates and writes nothing.  Fuel
models CPython's recursion limit: exhaustion is a RecursionError. -/
def mget : Nat → RMap → String → (Except Err (Value × RMap)) × Nat
  | fuel, m, k =>
    match lookupE m.data k with
    | none => (.ok (.vundefined k, m), 0)
    | some (.val v) => (.ok (v, m), 0)
    | some (.unresolved t) =>
      match fuel with
      | 0 => (.error .recursionError, 1)
      | f+1 =>
        match renderSegs (mget f) t.segs m with
        | (.ok (s, m'), n) =>
          let v := coerce t.src s
          (.ok (v, ⟨setE m'.data k (.val v)⟩), n + 1)
        | (.error e, n) => (.error e, n + 1)

/-- Generic association-list lookup on string keys (Python dict read). -/
def alookup {α : Type} : List (String × α) → String → Option α
  | [], _ => none
  | (k', v) :: rest, k => if k' = k then some v else alookup rest k

/-- Generic association-list update preserving insertion order. -/
def aset {α : Type} : List (String × α) → String → α → List (String × α)
  | [], k, v => [(k, v)]
  | (k', v') :: rest, k, v =>
    if k' = k then (k, v) :: rest else (k', v') :: aset rest k v

/-- Generic association-list removal (Python del / Path.unlink). -/
def aremove {α : Type} : List (String × α) → String → List (String × α)
  | [], _ => []
  | (k', v) :: rest, k => if k' = k then rest else (k', v) :: aremove rest k

/-- Embeds MutableMapping.__contains__ as inherited by RecursiveMapping
(`recursive_mapping.py` line 14): Python's mixin indexes self[key] and
answers False exactly on KeyError; any other exception propagates.  Since
__getitem__ returns StrictUndefined instead of raising KeyError for missing
keys, the False branch is unreachable (claim C10).  The indexing can render
and memoize in place, so the mutated mapping is threaded through. -/
def rm_contains (fuel : Nat) (m : RMap) (k : String) : (Except Err (Bool × RMap)) × Nat :=
  match mget fuel m k with
  | (.ok (_, m'), n) => (.ok (true, m'), n)
  | (.error e, n) => if e = .keyError then (.ok (false, m), n) else (.error e, n)

/-- Embeds Mapping.get(key, default) as inherited by RecursiveMapping: index
self[key] and fall back to the default exactly on KeyError. -/
def rm_get_default (fuel : Nat) (m : RMap) (k : String) (d : Value) :
    (Except Err (Value × RMap)) × Nat :=
  match mget fuel m k with
  | (.ok r, n) => (.ok r, n)
  | (.error e, n) => if e = .keyError then (.ok ((d, m)), n) else (.error e, n)

/-- Embeds `RecursiveTemplate.LazyContext.resolve_or_missing`
(`recursive_template.py` lines 24-31): current scope's vars first, then the
parent scope, then membership in the lazy mapping (which itself reads the
entry, possibly rendering it) followed by the actual read; otherwise jinja's
missing marker (none here). -/
def resolve_or_missing (fuel : Nat) (vars parent : List (String × Value))
    (m : RMap) (k : String) : (Except Err (Option Value × RMap)) × Nat :=
  match alookup vars k with
  | some v => (.ok (some v, m), 0)
  | none =>
  match alookup parent k with
  | some v => (.ok (some v, m), 0)
  | none =>
  match rm_contains fuel m k with
  | (.ok (true, m1), n) =>
    match mget fuel m1 k with
    | (.ok (v, m'), n') => (.ok (some v, m'), n + n')
    | (.error e, n') => (.error e, n + n')
  | (.ok (false, m1), n) => (.ok (none, m1), n)
  | (.error e, n) => (.error e, n)

/-- Jinja's Context.resolve on top of resolve_or_missing: the missing marker
becomes environment.undefined(name), which is StrictUndefined under the
environment configured in `environment.py` lines 7-11. -/
def ctx_resolve (fuel : Nat) (vars parent : List (String × Value))
    (m : RMap) (k : String) : (Except Err (Value × RMap)) × Nat :=
  match resolve_or_missing fuel vars parent m k with
  | (.ok (some v, m'), n) => (.ok (v, m'), n)
  | (.ok (none, m'), n) => (.ok (.vundefined k, m'), n)
  | (.error e, n) => (.error e, n)

/-- Resolves a snapshot list of keys through __getitem__ in order, collecting
the values (helper for the dict() conversion in Template.render). -/
def resolveKeys (fuel : Nat) : List String → RMap →
    (Except Err (List (String × Value) × RMap)) × Nat
  | [], m => (.ok ([], m), 0)
  | k :: ks, m =>
    match mget fuel m k with
    | (.ok (v, m'), n) =>
      match resolveKeys fuel ks m' with
      | (.ok (xs, m''), n') => (.ok ((k, v) :: xs, m''), n + n')
      | (.error e, n') => (.error e, n + n')
    | (.error e, n) => (.error e, n)

/-- Embeds the dict() conversion Jinja's Template.render applies to its
positional mapping argument (render_template passes the job's
RecursiveMapping): every key is read through __getitem__ in insertion order,
resolving all unresolved entries as a side effect. -/
def resolveAll (fuel : Nat) (m : RMap) :
    (Except Err (List (String × Value) × RMap)) × Nat :=
  resolveKeys fuel (m.data.map Prod.fst) m

/-- Embeds `RecursiveTemplate.new_context`'s construction of a fresh
RecursiveMapping from the already-resolved vars dict (`recursive_template.py`
line 43): each value passes through __setitem__, so a string matching the
classifier becomes an UnresolvedString again, compiled by the engine's parse
function (supplied as an oracle); other values are stored as-is.  A dict value
would become a child mapping; no resolution-side claim exercises that, so it is
stored as a plain value here (the construction-side model CMap below covers
children). -/
def freshClassify (parse : String → List Seg) (vars : List (String × Value)) : RMap :=
  ⟨vars.map (fun p => (p.1,
    match p.2 with
    | .vstr s =>
      if is_possibly_template s then Entry.unresolved ⟨s, parse s⟩ else Entry.val (.vstr s)
    | v => Entry.val v))⟩

/-- Embeds `render_template` (`recursive_template.py` lines 10-13) as invoked
from JintaroJob.run on a non-empty template: Template.render copies the
mapping into a plain dict (resolving every entry through __getitem__),
new_context wraps the copy in a fresh RecursiveMapping backed by a fresh
LazyContext, and the template body renders against that fresh mapping. -/
def render_template (fuel : Nat) (parse : String → List Seg) (content : String)
    (m : RMap) : (Except Err (String × RMap)) × Nat :=
  match resolveAll fuel m with
  | (.ok (vars, m'), n) =>
    match renderSegs (mget fuel) (parse content) (freshClassify parse vars) with
    | (.ok (s, _), n') => (.ok (s, m'), n + n')
    | (.error e, n') => (.error e, n + n')
  | (.error e, n) => (.error e, n)

/-- A filesystem entry: a regular file with text content, or a directory. -/
inductive FsEntry where
  | file (content : String)
  | dir
deriving DecidableEq, Repr

/-- A flat model of the filesystem paths a job touches. -/
structure JobFS where
  entries : List (String × FsEntry)
deriving DecidableEq, Repr

/-- Job-level error kinds raised by JintaroJob.run: the OutputError variants
from the skip and write steps, the read_file errors for the template path,
and propagated render errors. -/
inductive JobErr where
  | outputSkipEval
  | outputNotFile
  | outputExists
  | inputMissing
  | inputNotFile
  | renderError (e : Err)
deriving DecidableEq, Repr

/-- Terminal state of a job that did not fail. -/
inductive JobOutcome where
  | skipped
  | done
deriving DecidableEq, Repr

/-- Embeds the skip-evaluation block of JintaroJob.run (`jintaro.py` lines
337-346): `if skip:` tests raw truthiness; when truthy and a str the value is
converted with bool(strtobool(skip)) — a ValueError becomes the OutputError
"Failed to evaluate skip rule" — and the converted value is tested again. -/
def skipDecision (v : Value) : Except JobErr Bool :=
  match truthy v with
  | .error e => .error (.renderError e)
  | .ok false => .ok false
  | .ok true =>
    match v with
    | .vstr s =>
      match strtobool s with
      | some b => .ok b
      | none => .error .outputSkipEval
    | _ => .ok true

/-- Embeds the write block of JintaroJob.run (`jintaro.py` lines 358-364): an
existing non-file destination is an OutputError; an existing regular file
without force is an OutputError ("already exists") and nothing is written;
otherwise parent directories are created (implicit in this flat model) and the
rendered text fully overwrites the destination. -/
def write_output_step (fs : JobFS) (path : String) (force : Bool)
    (content : String) : Except JobErr JobFS :=
  match alookup fs.entries path with
  | some .dir => .error .outputNotFile
  | some (.file _) =>
    if force then .ok ⟨aset fs.entries path (.file content)⟩ else .error .outputExists
  | none => .ok ⟨aset fs.entries path (.file content)⟩

/-- Reads one job property through the context (each JintaroJob property
indexes self._context), wrapping render failures as job-level render errors. -/
def readCtx (fuel : Nat) (m : RMap) (k : String) :
    (Except JobErr (Value × RMap)) × Nat :=
  match mget fuel m k with
  | (.ok r, n) => (.ok r, n)
  | (.error e, n) => (.error (.renderError e), n)

/-- Embeds JintaroJob._run_hook (`jintaro.py` lines 315-333) together with the
property reads it triggers: read the hook command from the context; a falsy
command does nothing; a truthy command reads __cwd (the Popen cwd) and runs —
the subprocess is modelled as exiting 0, no claim concerns hook failure.  The
optional result is the command string recorded in the hook trace. -/
def runHook (fuel : Nat) (m : RMap) (key : String) :
    (Except JobErr (Option String × RMap)) × Nat :=
  match readCtx fuel m key with
  | (.error e, n) => (.error e, n)
  | (.ok (cv, m1), n1) =>
    match truthy cv with
    | .error e => (.error (.renderError e), n1)
    | .ok false => (.ok (none, m1), n1)
    | .ok true =>
      match pyStr cv with
      | .error e => (.error (.renderError e), n1)
      | .ok cmd =>
        match readCtx fuel m1 "__cwd" with
        | (.error e, n2) => (.error e, n1 + n2)
        | (.ok (_, m2), n2) => (.ok (some cmd, m2), n1 + n2)

/-- Embeds JintaroJob.run (`jintaro.py` lines 335-371) over the job's
RecursiveMapping context, a filesystem and a hook trace: evaluate the skip
rule (Skipped ends the job with no hooks and no write); run the pre hook;
read and render the template file; write the output gated by force; run the
post hook; honour the delete flag.  The final Nat counts template-engine
invocations; the String list records hook commands run, in order. -/
def jobRun (fuel : Nat) (parse : String → List Seg) (m : RMap) (fs : JobFS) :
    (Except JobErr (JobOutcome × JobFS × List String)) × Nat :=
  match readCtx fuel m "__skip" with
  | (.error e, n) => (.error e, n)
  | (.ok (skipv, m1), n1) =>
    match skipDecision skipv with
    | .error e => (.error e, n1)
    | .ok true => (.ok (.skipped, fs, []), n1)
    | .ok false =>
      match runHook fuel m1 "__pre_hook" with
      | (.error e, n2) => (.error e, n1 + n2)
      | (.ok (pre, m2), n2) =>
        match readCtx fuel m2 "__template" with
        | (.error e, n3) => (.error e, n1 + n2 + n3)
        | (.ok (tv, m3), n3) =>
          match pyStr tv with
          | .error e => (.error (.renderError e), n1 + n2 + n3)
          | .ok tpath =>
            match alookup fs.entries tpath with
            | none => (.error .inputMissing, n1 + n2 + n3)
            | some .dir => (.error .inputNotFile, n1 + n2 + n3)
            | some (.file content) =>
              match render_template fuel parse content m3 with
              | (.error e, n4) => (.error (.renderError e), n1 + n2 + n3 + n4)
              | (.ok (rendered, m4), n4) =>
                match readCtx fuel m4 "__output" with
                | (.error e, n5) => (.error e, n1 + n2 + n3 + n4 + n5)
                | (.ok (ov, m5), n5) =>
                  match pyStr ov with
                  | .error e => (.error (.renderError e), n1 + n2 + n3 + n4 + n5)
                  | .ok opath =>
                    match readCtx fuel m5 "__force" with
                    | (.error e, n6) => (.error e, n1 + n2 + n3 + n4 + n5 + n6)
                    | (.ok (fv, m6), n6) =>
                      match truthy fv with
                      | .error e => (.error (.renderError e), n1 + n2 + n3 + n4 + n5 + n6)
                      | .ok force =>
                        match write_output_step fs opath force rendered with
                        | .error e => (.error e, n1 + n2 + n3 + n4 + n5 + n6)
                        | .ok fs1 =>
                          match runHook fuel m6 "__post_hook" with
                          | (.error e, n7) => (.error e, n1 + n2 + n3 + n4 + n5 + n6 + n7)
                          | (.ok (post, m7), n7) =>
                            match readCtx fuel m7 "__delete" with
                            | (.error e, n8) =>
                              (.error e, n1 + n2 + n3 + n4 + n5 + n6 + n7 + n8)
                            | (.ok (dv, _), n8) =>
                              match truthy dv with
                              | .error e =>
                                (.error (.renderError e), n1 + n2 + n3 + n4 + n5 + n6 + n7 + n8)
                              | .ok del =>
                                let fs2 := if del then JobFS.mk (aremove fs1.entries opath) else fs1
                                (.ok (.done, fs2,
                                  (pre.toList ++ post.toList)),
                                  n1 + n2 + n3 + n4 + n5 + n6 + n7 + n8)

/-- Raw Python values handed to RecursiveMapping's constructor or __setitem__
before classification (construction-side model). -/
inductive Raw where
  | str (s : String)
  | int (n : Int)
  | bool (b : Bool)
  | none
  | dict (d : List (String × Raw))

/-- Construction-side model of a RecursiveMapping slot: an UnresolvedString,
a plain stored value, or a nested child RecursiveMapping carrying its own
data and its own context reference.  Render contexts are identified by
numeric ids handed out by an allocator; a Python object reference is shared
exactly when the ids are equal. -/
inductive CEntry where
  | unresolved (s : String)
  | plain (r : Raw)
  | child (data : List (String × CEntry)) (ctx : Option Nat)

/-- Construction-side model of RecursiveMapping: the __data dict plus the
private __context reference (none when unset). -/
structure CMap where
  data : List (String × CEntry)
  ctx : Option Nat

mutual

/-- Embeds the classification performed by RecursiveMapping.__setitem__
(`recursive_mapping.py` lines 47-56): a string matching the classifier becomes
an UnresolvedString; a dict becomes a child RecursiveMapping constructed with
the current value of self.__context; anything else is stored as-is. -/
def classify : Option Nat → Raw → CEntry
  | _, .str s => if is_possibly_template s then .unresolved s else .plain (.str s)
  | ctx, .dict d => .child (classifyList ctx d) ctx
  | _, r => .plain r

/-- Classification of every pair of an initial vars dict, in order
(MutableMapping.update routes each pair through __setitem__). -/
def classifyList : Option Nat → List (String × Raw) → List (String × CEntry)
  | _, [] => []
  | ctx, (k, v) :: rest => (k, classify ctx v) :: classifyList ctx rest

end

/-- Embeds RecursiveMapping.__init__ (`recursive_mapping.py` lines 19-22):
record the context reference, then self.update(vars) routes every initial
value through __setitem__. -/
def recursiveMappingInit (vars : List (String × Raw)) (ctx : Option Nat) : CMap :=
  ⟨classifyList ctx vars, ctx⟩

/-- Embeds the context property setter (`recursive_mapping.py` lines 28-30):
it assigns only this mapping's own __context field; child mappings stored in
__data are not visited. -/
def setContext (m : CMap) (c : Option Nat) : CMap :=
  ⟨m.data, c⟩

/-- Embeds __setitem__ on an existing mapping: classify the value with the
mapping's current context and store it under the key. -/
def cmSetItem (m : CMap) (k : String) (v : Raw) : CMap :=
  ⟨aset m.data k (classify m.ctx v), m.ctx⟩

/-- State of the render-context allocator: the next fresh context id.  Every
LazyContext construction takes one fresh id. -/
structure CtxState where
  nextCtx : Nat
deriving DecidableEq, Repr

/-- Embeds the context management of RecursiveTemplate.render_recursive
(`recursive_template.py` lines 33-39): if the mapping has no context yet, one
fresh LazyContext is constructed over it and stored on the mapping; the render
then uses the mapping's context.  Result: the context id this render pass
uses, the possibly-updated mapping, the allocator state, and how many fresh
contexts were created (0 or 1). -/
def render_recursive_ctx (m : CMap) (s : CtxState) : Nat × CMap × CtxState × Nat :=
  match m.ctx with
  | some c => (c, m, s, 0)
  | none => (s.nextCtx, ⟨m.data, some s.nextCtx⟩, ⟨s.nextCtx + 1⟩, 1)

/-- Embeds RecursiveTemplate.new_context (`recursive_template.py` lines 41-61)
as Template.render calls it for the template's own render pass: a fresh
RecursiveMapping is built from the plain vars dict (its context initially
unset), one fresh LazyContext is constructed, and the mapping's context is
assigned to it (line 60).  Result: the pass's context id, the backing mapping,
and the allocator state.  The parent/locals scope handling of lines 45-57 does
not affect context identity and is not modelled. -/
def new_context (vars : List (String × Raw)) (s : CtxState) : Nat × CMap × CtxState :=
  let lazyVars := recursiveMappingInit vars none
  let c := s.nextCtx
  (c, setContext lazyVars (some c), ⟨s.nextCtx + 1⟩)

/-- Source text of the example skip rule from the spec's testable properties. -/
def skipSrc : String := "\x7b\x7b row > 3 \x7d\x7d"

/-- Source text of the example template file. -/
def tplSrc : String := "Row \x7b\x7b row \x7d\x7d"

/-- Concrete compile oracle mapping the example template sources to their
compiled segment lists. -/
def parse0 (s : String) : List Seg :=
  if s = skipSrc then [.gtVar "row" 3]
  else if s = tplSrc then [.lit "Row ", .var "row"]
  else [.lit s]

/-- Job context for the skip-rule example with the given row value; the other
reserved job-metadata entries hold plain values. -/
def ctxRow (r : Int) : RMap :=
  ⟨[("row", .val (.vint r)),
    ("__skip", .unresolved ⟨skipSrc, [.gtVar "row" 3]⟩),
    ("__pre_hook", .val .vnone),
    ("__post_hook", .val .vnone),
    ("__cwd", .val (.vstr ".")),
    ("__template", .val (.vstr "tpl.txt")),
    ("__output", .val (.vstr "out.txt")),
    ("__force", .val (.vbool false)),
    ("__delete", .val (.vbool false))]⟩

/-- Filesystem for the skip-rule example: just the template file. -/
def exampleFS : JobFS := ⟨[("tpl.txt", .file tplSrc)]⟩

/-- Mapping whose single lazy entry references an undefined name, so its
render always raises UndefinedError and nothing is ever memoized. -/
def failMap : RMap := ⟨[("k", .unresolved ⟨"\x7b\x7b u \x7d\x7d", [.var "u"]⟩)]⟩

/-- Mapping with two entries that reference each other directly
(a renders b, b renders a). -/
def cycMap : RMap :=
  ⟨[("a", .unresolved ⟨"\x7b\x7b b \x7d\x7d", [.var "b"]⟩),
    ("b", .unresolved ⟨"\x7b\x7b a \x7d\x7d", [.var "a"]⟩)]⟩

/-- Mapping with a lazy entry referencing a literal entry. -/
def goodMap : RMap :=
  ⟨[("b", .val (.vint 5)), ("a", .unresolved ⟨"\x7b\x7b b \x7d\x7d", [.var "b"]⟩)]⟩

/-- goodMap after its lazy entry has been resolved and memoized. -/
def goodMapResolved : RMap := ⟨[("b", .val (.vint 5)), ("a", .val (.vint 5))]⟩

/-- Parent mapping built with an unset context whose dict value became a child
mapping at construction time (construction-side model). -/
def parentCM : CMap :=
  recursiveMappingInit [("c", .dict [("x", .str "\x7b\x7b y \x7d\x7d")])] none

/-! Helper lemmas about the embedded mapping, shared by the claim theorems. -/

theorem alookup_aset_self {α : Type} (d : List (String × α)) (k : String) (v : α) :
    alookup (aset d k v) k = some v := by
  induction d with
  | nil => simp [aset, alookup]
  | cons p rest ih =>
    obtain ⟨k', v'⟩ := p
    by_cases hk : k' = k
    · simp [aset, hk, alookup]
    · simp [aset, hk, alookup, ih]

theorem head?_dropWhile {α : Type} (p : α → Bool) (l : List α) (c : α)
    (h : (l.dropWhile p).head? = some c) : p c = false := by
  induction l with
  | nil => simp [List.dropWhile] at h
  | cons a rest ih =>
    cases hp : p a with
    | true =>
      rw [List.dropWhile_cons_of_pos hp] at h
      exact ih h
    | false =>
      rw [List.dropWhile_cons_of_neg (by simp [hp])] at h
      simp at h
      subst h
      exact hp

theorem lookupE_setE_self (d : List (String × Entry)) (k : String) (e : Entry) :
    lookupE (setE d k e) k = some e := by
  induction d with
  | nil => simp [setE, lookupE]
  | cons p rest ih =>
    obtain ⟨k', e'⟩ := p
    by_cases hk : k' = k
    · simp [setE, hk, lookupE]
    · simp [setE, hk, lookupE, ih]

theorem mget_none (fuel : Nat) (m : RMap) (k : String) (h : lookupE m.data k = none) :
    mget fuel m k = (.ok (.vundefined k, m), 0) := by
  unfold mget
  rw [h]

theorem mget_val (fuel : Nat) (m : RMap) (k : String) (v : Value)
    (h : lookupE m.data k = some (.val v)) :
    mget fuel m k = (.ok (v, m), 0) := by
  unfold mget
  rw [h]

theorem mget_unresolved_zero (m : RMap) (k : String) (t : Tpl)
    (h : lookupE m.data k = some (.unresolved t)) :
    mget 0 m k = (.error .recursionError, 1) := by
  unfold mget
  rw [h]

theorem mget_unresolved_step (f : Nat) (m : RMap) (k : String) (t : Tpl)
    (h : lookupE m.data k = some (.unresolved t)) :
    mget (f + 1) m k =
      (match renderSegs (mget f) t.segs m with
       | (.ok (s, m'), n) =>
         (.ok (coerce t.src s, ⟨setE m'.data k (.val (coerce t.src s))⟩), n + 1)
       | (.error e, n) => (.error e, n + 1)) := by
  unfold mget
  rw [h]

theorem mget_unresolved_ok (f : Nat) (m : RMap) (k : String) (t : Tpl) (s : String)
    (m'' : RMap) (n : Nat)
    (hl : lookupE m.data k = some (.unresolved t))
    (hr : renderSegs (mget f) t.segs m = (.ok (s, m''), n)) :
    mget (f + 1) m k =
      (.ok (coerce t.src s, ⟨setE m''.data k (.val (coerce t.src s))⟩), n + 1) := by
  rw [mget_unresolved_step f m k t hl, hr]

theorem mget_unresolved_err (f : Nat) (m : RMap) (k : String) (t : Tpl) (e : Err) (n : Nat)
    (hl : lookupE m.data k = some (.unresolved t))
    (hr : renderSegs (mget f) t.segs m = (.error e, n)) :
    mget (f + 1) m k = (.error e, n + 1) := by
  rw [mget_unresolved_step f m k t hl, hr]

theorem pyStr_error_ne_keyError (v : Value) (e : Err) (h : pyStr v = .error e) :
    e ≠ .keyError := by
  cases v with
  | vundefined name =>
    simp only [pyStr, Except.error.injEq] at h
    subst h
    simp
  | vstr s => simp [pyStr] at h
  | vint n => simp [pyStr] at h
  | vbool b => simp [pyStr] at h
  | vnone => simp [pyStr] at h
  | vlist xs => simp [pyStr] at h
  | vdict xs => simp [pyStr] at h

theorem renderSegs_ne_keyError
    (get : RMap → String → (Except Err (Value × RMap)) × Nat)
    (hget : ∀ m k, (get m k).1 ≠ .error .keyError) :
    ∀ (segs : List Seg) (m : RMap), (renderSegs get segs m).1 ≠ .error .keyError := by
  intro segs
  induction segs with
  | nil => intro m; simp [renderSegs]
  | cons sg rest ih =>
    intro m
    cases sg with
    | lit s =>
      unfold renderSegs
      split
      · simp
      · next e n heq =>
        have h2 := ih m
        rw [heq] at h2
        simpa using h2
    | var k =>
      unfold renderSegs
      split
      · next v m' n heq =>
        split
        · next s hps =>
          split
          · simp
          · next e2 n2 heq2 =>
            have h2 := ih m'
            rw [heq2] at h2
            simpa using h2
        · next e hpe =>
          have h2 := pyStr_error_ne_keyError v e hpe
          simpa using h2
      · next e n heq =>
        have h2 := hget m k
        rw [heq] at h2
        simpa using h2
    | gtVar k c =>
      unfold renderSegs
      split
      · next i m' n heq =>
        split
        · simp
        · next e2 n2 heq2 =>
          have h2 := ih m'
          rw [heq2] at h2
          simpa using h2
      · next name snd n heq => simp
      · next fst snd n heq => simp
      · next e n heq =>
        have h2 := hget m k
        rw [heq] at h2
        simpa using h2

theorem mget_ne_keyError : ∀ (fuel : Nat) (m : RMap) (k : String),
    (mget fuel m k).1 ≠ .error .keyError := by
  intro fuel
  induction fuel with
  | zero =>
    intro m k
    cases hl : lookupE m.data k with
    | none => rw [mget_none 0 m k hl]; simp
    | some e =>
      cases e with
      | val v => rw [mget_val 0 m k v hl]; simp
      | unresolved t => rw [mget_unresolved_zero m k t hl]; simp
  | succ f ih =>
    intro m k
    cases hl : lookupE m.data k with
    | none => rw [mget_none (f+1) m k hl]; simp
    | some e =>
      cases e with
      | val v => rw [mget_val (f+1) m k v hl]; simp
      | unresolved t =>
        rcases hr : renderSegs (mget f) t.segs m with ⟨r, nn⟩
        cases r with
        | ok p =>
          obtain ⟨s, m''⟩ := p
          rw [mget_unresolved_ok f m k t s m'' nn hl hr]
          simp
        | error e =>
          rw [mget_unresolved_err f m k t e nn hl hr]
          have h2 := renderSegs_ne_keyError (mget f) (fun m k => ih m k) t.segs m
          rw [hr] at h2
          simpa using h2

theorem mget_post_success (fuel fuel' : Nat) (m m' : RMap) (k : String) (v : Value) (n : Nat)
    (h : mget fuel m k = (.ok (v, m'), n)) :
    mget fuel' m' k = (.ok (v, m'), 0) := by
  cases hl : lookupE m.data k with
  | none =>
    rw [mget_none fuel m k hl] at h
    simp only [Prod.mk.injEq, Except.ok.injEq] at h
    obtain ⟨⟨hv, hm⟩, hn⟩ := h
    subst hv; subst hm
    exact mget_none fuel' m k hl
  | some e =>
    cases e with
    | val v0 =>
      rw [mget_val fuel m k v0 hl] at h
      simp only [Prod.mk.injEq, Except.ok.injEq] at h
      obtain ⟨⟨hv, hm⟩, hn⟩ := h
      subst hv; subst hm
      exact mget_val fuel' m k v0 hl
    | unresolved t =>
      cases fuel with
      | zero =>
        rw [mget_unresolved_zero m k t hl] at h
        simp at h
      | succ f =>
        rcases hr : renderSegs (mget f) t.segs m with ⟨r, nn⟩
        cases r with
        | error e =>
          rw [mget_unresolved_err f m k t e nn hl hr] at h
          simp at h
        | ok p =>
          obtain ⟨s, m''⟩ := p
          rw [mget_unresolved_ok f m k t s m'' nn hl hr] at h
          simp only [Prod.mk.injEq, Except.ok.injEq] at h
          obtain ⟨⟨hv, hm⟩, hn⟩ := h
          subst hv; subst hm
          exact mget_val fuel' _ k _ (lookupE_setE_self m''.data k _)

/-- Claim C6 (confirmed): for the mapping whose two entries reference each
other directly (a renders b, b renders a), reading either key terminates and
signals an explicit error for every recursion budget: the mutual recursion
consumes the budget (CPython's recursion limit, modelled as fuel) and surfaces
a RecursionError — an exception fatal for that job only — instead of
deadlocking or looping without bound (the model is a total function). -/
theorem c6_mutual_reference_errors (fuel : Nat) :
    (mget fuel cycMap "a").1 = .error .recursionError ∧
    (mget fuel cycMap "b").1 = .error .recursionError := by
  induction fuel with
  | zero =>
    constructor
    · rw [mget_unresolved_zero cycMap "a" ⟨"\x7b\x7b b \x7d\x7d", [.var "b"]⟩ rfl]
    · rw [mget_unresolved_zero cycMap "b" ⟨"\x7b\x7b a \x7d\x7d", [.var "a"]⟩ rfl]
  | succ f ih =>
    obtain ⟨iha, ihb⟩ := ih
    rcases ha : mget f cycMap "a" with ⟨ra, na⟩
    rcases hb : mget f cycMap "b" with ⟨rb, nb⟩
    rw [ha] at iha
    rw [hb] at ihb
    simp only at iha
    simp only at ihb
    subst iha
    subst ihb
    constructor
    · have hr : renderSegs (mget f) [Seg.var "b"] cycMap = (.error .recursionError, nb) := by
        unfold renderSegs
        rw [hb]
      rw [mget_unresolved_err f cycMap "a" ⟨"\x7b\x7b b \x7d\x7d", [.var "b"]⟩
        .recursionError nb rfl hr]
    · have hr : renderSegs (mget f) [Seg.var "a"] cycMap = (.error .recursionError, na) := by
        unfold renderSegs
        rw [ha]
      rw [mget_unresolved_err f cycMap "b" ⟨"\x7b\x7b a \x7d\x7d", [.var "a"]⟩
        .recursionError na rfl hr]

/-- Claim C1, counterexample: the claim asserts the template engine is invoked
at most once per entry over the mapping's lifetime.  For the mapping whose
single unresolved entry renders an undefined name, a get raises UndefinedError
after one engine invocation and stores nothing (the mapping is unchanged), so
a second get of the same key invokes the engine again: two invocations for one
entry over the mapping's lifetime. -/
theorem c1_counterexample :
    mget 5 failMap "k" = (.error (.undefinedError "u"), 1) ∧
    (mget 5 failMap "k").2 + (mget 5 failMap "k").2 = 2 ∧
    ¬ (mget 5 failMap "k").2 + (mget 5 failMap "k").2 ≤ 1 :=
  ⟨rfl, rfl, by decide⟩

/-- Claim C1, amended: a key holding a literal or already-resolved value is
returned directly with no engine invocation and no state change; for an
unresolved-template entry, a get whose render SUCCEEDS performs the (counted)
engine invocation on the entry's source, stores the coerced render result back
into the slot, and every subsequent get of that key returns the stored value
with zero further engine invocations and no state change — while a get whose
render fails stores nothing, so the at-most-once guarantee holds from the
first successful resolution onward (not over the entire lifetime). -/
theorem c1_memoization (fuel : Nat) (m : RMap) (k : String) :
    (∀ v, lookupE m.data k = some (.val v) → mget fuel m k = (.ok (v, m), 0)) ∧
    (∀ t v m' n, lookupE m.data k = some (.unresolved t) →
      mget fuel m k = (.ok (v, m'), n) →
      lookupE m'.data k = some (.val v) ∧ 1 ≤ n ∧
      (∀ fuel', mget fuel' m' k = (.ok (v, m'), 0)) ∧
      (∃ f' s m'' n', fuel = f' + 1 ∧
        renderSegs (mget f') t.segs m = (.ok (s, m''), n') ∧
        v = coerce t.src s ∧ m' = RMap.mk (setE m''.data k (.val v)) ∧ n = n' + 1)) := by
  constructor
  · intro v hl
    exact mget_val fuel m k v hl
  · intro t v m' n hl h
    cases fuel with
    | zero =>
      rw [mget_unresolved_zero m k t hl] at h
      simp at h
    | succ f =>
      rcases hr : renderSegs (mget f) t.segs m with ⟨r, nn⟩
      cases r with
      | error e =>
        rw [mget_unresolved_err f m k t e nn hl hr] at h
        simp at h
      | ok p =>
        obtain ⟨s, m''⟩ := p
        rw [mget_unresolved_ok f m k t s m'' nn hl hr] at h
        simp only [Prod.mk.injEq, Except.ok.injEq] at h
        obtain ⟨⟨hv, hm⟩, hn⟩ := h
        subst hv; subst hm; subst hn
        refine ⟨lookupE_setE_self m''.data k _, Nat.le_add_left 1 nn, ?_, ?_⟩
        · intro fuel'
          exact mget_val fuel' _ k _ (lookupE_setE_self m''.data k _)
        · exact ⟨f, s, m'', nn, rfl, hr, rfl, rfl, rfl⟩

/-- Witness for the amended claim C1 at a concrete mapping: goodMap's entry a
renders b once, memoizes 5, and subsequent gets return the stored 5 with no
further render. -/
theorem c1_memoization_witness :
    lookupE ((⟨[("b", .val (.vint 5)), ("a", .val (.vint 5))]⟩ : RMap)).data "a" =
      some (.val (.vint 5)) ∧ 1 ≤ 1 ∧
    (∀ fuel', mget fuel' (⟨[("b", .val (.vint 5)), ("a", .val (.vint 5))]⟩ : RMap) "a" =
      (.ok (.vint 5, ⟨[("b", .val (.vint 5)), ("a", .val (.vint 5))]⟩), 0)) ∧
    (∃ f' s m'' n', 5 = f' + 1 ∧
      renderSegs (mget f') [Seg.var "b"] goodMap = (.ok (s, m''), n') ∧
      (Value.vint 5) = coerce "\x7b\x7b b \x7d\x7d" s ∧
      (⟨[("b", .val (.vint 5)), ("a", .val (.vint 5))]⟩ : RMap) =
        RMap.mk (setE m''.data "a" (.val (.vint 5))) ∧ 1 = n' + 1) :=
  (c1_memoization 5 goodMap "a").2 ⟨"\x7b\x7b b \x7d\x7d", [Seg.var "b"]⟩ (.vint 5)
    ⟨[("b", .val (.vint 5)), ("a", .val (.vint 5))]⟩ 1 rfl rfl

/-- Claim C10 (confirmed): for every Lazy Variable Mapping and every key —
including keys never inserted — the membership test answers true and never
false: reading a missing key returns the StrictUndefined sentinel instead of
raising KeyError, so the KeyError branch of the MutableMapping mixin is
unreachable; consequently Mapping.get's default branch is never taken (its
result does not depend on the supplied default). -/
theorem c10_contains_always_true (fuel : Nat) (m : RMap) (k : String) :
    (∀ m1, (rm_contains fuel m k).1 ≠ .ok (false, m1)) ∧
    (lookupE m.data k = none →
      rm_contains fuel m k = (.ok (true, m), 0) ∧
      mget fuel m k = (.ok (.vundefined k, m), 0)) ∧
    (∀ d₁ d₂ : Value, (rm_get_default fuel m k d₁).1 = (rm_get_default fuel m k d₂).1) := by
  refine ⟨?_, ?_, ?_⟩
  · intro m1
    unfold rm_contains
    split
    · next v m' n heq => simp
    · next e n heq =>
      have h2 := mget_ne_keyError fuel m k
      rw [heq] at h2
      have he : e ≠ .keyError := by simpa using h2
      simp [he]
  · intro hl
    constructor
    · unfold rm_contains
      rw [mget_none fuel m k hl]
    · exact mget_none fuel m k hl
  · intro d₁ d₂
    unfold rm_get_default
    split
    · rfl
    · next e n heq =>
      have h2 := mget_ne_keyError fuel m k
      rw [heq] at h2
      have he : e ≠ .keyError := by simpa using h2
      simp [he]

/-- Witness for claim C10 at a concrete key never inserted into goodMap. -/
theorem c10_contains_always_true_witness :
    (∀ m1, (rm_contains 3 goodMap "zzz").1 ≠ .ok (false, m1)) ∧
    (rm_contains 3 goodMap "zzz" = (.ok (true, goodMap), 0) ∧
      mget 3 goodMap "zzz" = (.ok (.vundefined "zzz", goodMap), 0)) ∧
    (∀ d₁ d₂ : Value,
      (rm_get_default 3 goodMap "zzz" d₁).1 = (rm_get_default 3 goodMap "zzz" d₂).1) :=
  ⟨(c10_contains_always_true 3 goodMap "zzz").1,
   (c10_contains_always_true 3 goodMap "zzz").2.1 rfl,
   (c10_contains_always_true 3 goodMap "zzz").2.2⟩

/-- Claim C4 (confirmed): when the template engine asks the render context for
a name, LazyContext.resolve_or_missing tries, first match wins: (a) the
current render scope's vars, (b) the enclosing parent scope, (c) delegation to
the lazy mapping's read (whose membership test plus indexing cost one
memoized resolution); a name bound nowhere flows out as the StrictUndefined
sentinel — never a silent empty string — and raises UndefinedError at the
point of use (string conversion or truth test). -/
theorem c4_resolution_order (fuel : Nat) (vars parent : List (String × Value))
    (m : RMap) (k : String) :
    (∀ v, alookup vars k = some v →
      resolve_or_missing fuel vars parent m k = (.ok (some v, m), 0)) ∧
    (∀ v, alookup vars k = none → alookup parent k = some v →
      resolve_or_missing fuel vars parent m k = (.ok (some v, m), 0)) ∧
    (∀ v m' n, alookup vars k = none → alookup parent k = none →
      mget fuel m k = (.ok (v, m'), n) →
      resolve_or_missing fuel vars parent m k = (.ok (some v, m'), n)) ∧
    (alookup vars k = none → alookup parent k = none → lookupE m.data k = none →
      ctx_resolve fuel vars parent m k = (.ok (.vundefined k, m), 0) ∧
      pyStr (.vundefined k) = .error (.undefinedError k) ∧
      truthy (.vundefined k) = .error (.undefinedError k)) := by
  refine ⟨?_, ?_, ?_, ?_⟩
  · intro v hv
    unfold resolve_or_missing
    rw [hv]
  · intro v hv hp
    unfold resolve_or_missing
    rw [hv, hp]
  · intro v m' n hv hp hg
    have hc : rm_contains fuel m k = (.ok (true, m'), n) := by
      unfold rm_contains
      rw [hg]
    have hg2 : mget fuel m' k = (.ok (v, m'), 0) :=
      mget_post_success fuel fuel m m' k v n hg
    unfold resolve_or_missing
    rw [hv, hp, hc]
    dsimp only
    rw [hg2]
    simp
  · intro h1 h2 h3
    have hg := mget_none fuel m k h3
    have hc : rm_contains fuel m k = (.ok (true, m), 0) := by
      unfold rm_contains
      rw [hg]
    refine ⟨?_, rfl, rfl⟩
    unfold ctx_resolve resolve_or_missing
    rw [h1, h2, hc]
    dsimp only
    rw [hg]

/-- Witness for claim C4 at concrete scopes and keys: the local scope wins for
x, the parent scope wins for y, delegation resolves a through goodMap with one
render, and the unbound name zzz yields the strict-undefined sentinel. -/
theorem c4_resolution_order_witness :
    resolve_or_missing 5 [("x", Value.vint 1)] [("y", Value.vint 2)] goodMap "x" =
      (.ok (some (.vint 1), goodMap), 0) ∧
    resolve_or_missing 5 [("x", Value.vint 1)] [("y", Value.vint 2)] goodMap "y" =
      (.ok (some (.vint 2), goodMap), 0) ∧
    resolve_or_missing 5 [("x", Value.vint 1)] [("y", Value.vint 2)] goodMap "a" =
      (.ok (some (.vint 5), goodMapResolved), 1) ∧
    (ctx_resolve 5 [("x", Value.vint 1)] [("y", Value.vint 2)] goodMap "zzz" =
      (.ok (.vundefined "zzz", goodMap), 0) ∧
     pyStr (.vundefined "zzz") = .error (.undefinedError "zzz") ∧
     truthy (.vundefined "zzz") = .error (.undefinedError "zzz")) :=
  ⟨(c4_resolution_order 5 [("x", Value.vint 1)] [("y", Value.vint 2)] goodMap "x").1
      (.vint 1) rfl,
   (c4_resolution_order 5 [("x", Value.vint 1)] [("y", Value.vint 2)] goodMap "y").2.1
      (.vint 2) rfl rfl,
   (c4_resolution_order 5 [("x", Value.vint 1)] [("y", Value.vint 2)] goodMap "a").2.2.1
      (.vint 5) goodMapResolved 1 rfl rfl rfl,
   (c4_resolution_order 5 [("x", Value.vint 1)] [("y", Value.vint 2)] goodMap "zzz").2.2.2
      rfl rfl rfl⟩

/-- Claim C3 (confirmed): coercion of a rendered result against the original
template text: if the rendered string equals the original it is returned
unchanged as a string (for any text); otherwise the code attempts, in order,
literal parsing of the stripped string (typed value on success), then
permissive boolean token parsing, then returns the rendered string as-is; and
the claim's concrete examples evaluate as stated (1 becomes integer 1, true
becomes boolean true, [1,2] becomes a two-element list). -/
theorem c3_value_coercion :
    (∀ x : String, coerce x x = .vstr x) ∧
    coerce "\x7b\x7b1\x7d\x7d" "1" = .vint 1 ∧
    coerce "\x7b\x7bx\x7d\x7d" "true" = .vbool true ∧
    coerce "\x7b\x7bx\x7d\x7d" "[1,2]" = .vlist [.vint 1, .vint 2] ∧
    (∀ o r : String, r ≠ o →
      ((∃ v, literal_eval (pyStrip r) = some v ∧ coerce o r = v) ∨
       (literal_eval (pyStrip r) = none ∧
        ∃ b, strtobool (pyStrip r) = some b ∧ coerce o r = .vbool b) ∨
       (literal_eval (pyStrip r) = none ∧ strtobool (pyStrip r) = none ∧
        coerce o r = .vstr r))) := by
  refine ⟨?_, rfl, rfl, rfl, ?_⟩
  · intro x
    simp [coerce]
  · intro o r hne
    unfold coerce
    rw [if_neg hne]
    unfold evaluate_string
    cases hl : literal_eval (pyStrip r) with
    | some v => exact Or.inl ⟨v, rfl, rfl⟩
    | none =>
      cases hs : strtobool (pyStrip r) with
      | some b => exact Or.inr (Or.inl ⟨rfl, b, rfl, rfl⟩)
      | none => exact Or.inr (Or.inr ⟨rfl, rfl, rfl⟩)

/-- Witness for claim C3 at concrete distinct strings: coercing rendered b
against original a falls through both parses and returns the string. -/
theorem c3_value_coercion_witness :
    "b" ≠ "a" ∧
    ((∃ v, literal_eval (pyStrip "b") = some v ∧ coerce "a" "b" = v) ∨
     (literal_eval (pyStrip "b") = none ∧
      ∃ bb, strtobool (pyStrip "b") = some bb ∧ coerce "a" "b" = .vbool bb) ∨
     (literal_eval (pyStrip "b") = none ∧ strtobool (pyStrip "b") = none ∧
      coerce "a" "b" = .vstr "b")) :=
  ⟨by decide, c3_value_coercion.2.2.2.2 "a" "b" (by decide)⟩

/-- Claim C9, counterexample: the claim says each RUN of characters outside
[0-9a-zA-Z_] collapses to a single underscore; process_header (re.sub with a
single-character class) instead replaces each such character with its own
underscore: on the header a-space-space-b the code produces a__b while the
spec-side run-collapsing reading produces a_b. -/
theorem c9_counterexample :
    process_header "a  b" = "a__b" ∧
    process_header_specmodel "a  b" = "a_b" ∧
    process_header "a  b" ≠ process_header_specmodel "a  b" :=
  ⟨rfl, rfl, by decide⟩

/-- Claim C9, amended: normalization lower-cases the header, replaces EACH
character outside [0-9a-zA-Z_] with an underscore (one underscore per
character, so a run of n bad characters yields n underscores), then strips the
leading run of characters outside [a-zA-Z_]; every character of the result is
alphanumeric or underscore, the result never starts with a character outside
[a-zA-Z_], and the header row Name,Count yields the names name and count. -/
theorem c9_process_header (s : String) :
    process_header "Name" = "name" ∧
    process_header "Count" = "count" ∧
    (∀ c ∈ (process_header s).data, isWordChar c = true) ∧
    (∀ c, (process_header s).data.head? = some c → isIdentStart c = true) := by
  refine ⟨rfl, rfl, ?_, ?_⟩
  · intro c hc
    unfold process_header at hc
    have hc2 : c ∈ (s.data.map Char.toLower).map (fun c => if isWordChar c then c else '_') :=
      (List.dropWhile_sublist _).subset hc
    rcases List.mem_map.mp hc2 with ⟨a, ha, rfl⟩
    by_cases h : isWordChar a = true
    · rw [if_pos h]
      exact h
    · rw [if_neg h]
      decide
  · intro c hc
    unfold process_header at hc
    have h2 := head?_dropWhile _ _ c hc
    simpa using h2

/-- Witness for the amended claim C9 at the concrete header 1a-b, whose
normalization strips the leading digit and keeps word characters. -/
theorem c9_process_header_witness :
    process_header "Name" = "name" ∧
    isWordChar 'a' = true ∧
    isIdentStart 'a' = true :=
  ⟨(c9_process_header "x").1,
   (c9_process_header "1a-b").2.2.1 'a' (by decide),
   (c9_process_header "1a-b").2.2.2 'a' (by decide)⟩

/-- Claim C8 (confirmed): in the job's write step, an existing destination
that is not a regular file fails with an output error; an existing regular
file with force unset fails with an output error and nothing is written (the
filesystem is left as it was); otherwise — missing destination, or existing
file with force set — the rendered text fully overwrites the destination
(parent directory creation is implicit in the flat filesystem model). -/
theorem c8_write_step (fs : JobFS) (path : String) (force : Bool) (content : String) :
    (alookup fs.entries path = some .dir →
      write_output_step fs path force content = .error .outputNotFile) ∧
    (∀ old, alookup fs.entries path = some (.file old) → force = false →
      write_output_step fs path force content = .error .outputExists) ∧
    ((alookup fs.entries path = none ∨
      (∃ old, alookup fs.entries path = some (.file old) ∧ force = true)) →
      write_output_step fs path force content = .ok ⟨aset fs.entries path (.file content)⟩ ∧
      alookup (aset fs.entries path (.file content)) path = some (.file content)) := by
  refine ⟨?_, ?_, ?_⟩
  · intro h
    unfold write_output_step
    rw [h]
  · intro old h hf
    unfold write_output_step
    rw [h, hf]
    simp
  · intro h
    refine ⟨?_, alookup_aset_self fs.entries path (.file content)⟩
    rcases h with h | ⟨old, h, hf⟩
    · unfold write_output_step
      rw [h]
    · unfold write_output_step
      rw [h, hf]
      simp

/-- Witness for claim C8 at concrete one-entry filesystems: a directory
destination errors, an existing file without force errors, and with force the
file is overwritten. -/
theorem c8_write_step_witness :
    write_output_step ⟨[("d", .dir)]⟩ "d" false "x" = .error .outputNotFile ∧
    write_output_step ⟨[("f", .file "old")]⟩ "f" false "x" = .error .outputExists ∧
    (write_output_step ⟨[("f", .file "old")]⟩ "f" true "x" =
      .ok ⟨aset [("f", FsEntry.file "old")] "f" (FsEntry.file "x")⟩ ∧
     alookup (aset [("f", FsEntry.file "old")] "f" (FsEntry.file "x")) "f" =
       some (FsEntry.file "x")) :=
  ⟨(c8_write_step ⟨[("d", .dir)]⟩ "d" false "x").1 rfl,
   (c8_write_step ⟨[("f", .file "old")]⟩ "f" false "x").2.1 "old" rfl rfl,
   (c8_write_step ⟨[("f", .file "old")]⟩ "f" true "x").2.2 (Or.inr ⟨"old", rfl, rfl⟩)⟩

/-- Claim C2 (confirmed): the template's own render pass obtains its context
from new_context, which creates exactly one fresh LazyContext and stores it on
the pass's backing mapping; every nested lazy-variable render triggered from
inside the pass goes through render_recursive on that same mapping, which
reuses the stored context — the context id used is the pass's id, zero
further contexts are created, and the mapping and allocator state are
unchanged — so resolving variable A mid-render of variable B shares the
identical context and memoization state, and no fresh context or mapping is
created during the pass beyond the single pair made at pass start. -/
theorem c2_shared_context (vars : List (String × Raw)) (s : CtxState) :
    (∀ c m s', new_context vars s = (c, m, s') →
      m.ctx = some c ∧
      render_recursive_ctx m s' = (c, m, s', 0) ∧
      (∀ s'', render_recursive_ctx m s'' = (c, m, s'', 0))) ∧
    (∀ (m : CMap) (c : Nat), m.ctx = some c →
      ∀ st, render_recursive_ctx m st = (c, m, st, 0)) := by
  constructor
  · intro c m s' h
    unfold new_context at h
    simp only [Prod.mk.injEq] at h
    obtain ⟨hc, hm, hs⟩ := h
    subst hc
    subst hm
    refine ⟨rfl, rfl, fun s'' => rfl⟩
  · intro m c hc st
    unfold render_recursive_ctx
    rw [hc]

/-- Witness for claim C2 at the concrete pass created by new_context on empty
vars from a fresh allocator. -/
theorem c2_shared_context_witness :
    (⟨[], some 0⟩ : CMap).ctx = some 0 ∧
    render_recursive_ctx ⟨[], some 0⟩ ⟨1⟩ = (0, ⟨[], some 0⟩, ⟨1⟩, 0) ∧
    (∀ s'', render_recursive_ctx ⟨[], some 0⟩ s'' = (0, ⟨[], some 0⟩, s'', 0)) :=
  (c2_shared_context [] ⟨0⟩).1 0 ⟨[], some 0⟩ ⟨1⟩ rfl

/-- Claim C5, counterexample: the claim says a dict value becomes a child
mapping sharing the parent's render-context reference even when the parent's
context is assigned only after the child was created; in the code the context
property setter writes only the parent's own field, so a child created while
the parent's context was unset keeps none even after the parent is assigned
context 7. -/
theorem c5_counterexample :
    alookup (setContext parentCM (some 7)).data "c" =
      some (.child [("x", .unresolved "\x7b\x7b y \x7d\x7d")] none) ∧
    (setContext parentCM (some 7)).ctx = some 7 ∧
    (none : Option Nat) ≠ some 7 :=
  ⟨rfl, rfl, by decide⟩

/-- Claim C5, amended: a dict value stored into a Lazy Variable Mapping (at
construction or through set) becomes a child mapping sharing the context
reference the parent holds AT THAT MOMENT; assigning the parent's context
later does not propagate to existing children — the setter writes only the
parent's own field and leaves the stored data untouched. -/
theorem c5_child_context (m : CMap) (k : String) (d : List (String × Raw)) :
    alookup (cmSetItem m k (.dict d)).data k =
      some (.child (classifyList m.ctx d) m.ctx) ∧
    (∀ c', (setContext m c').data = m.data ∧ (setContext m c').ctx = c') ∧
    (∀ vars ctx, (recursiveMappingInit vars ctx).data = classifyList ctx vars) := by
  refine ⟨?_, fun c' => ⟨rfl, rfl⟩, fun vars ctx => rfl⟩
  unfold cmSetItem
  exact alookup_aset_self m.data k _

/-- Claim C7 (confirmed): with a configured skip rule, JintaroJob.run reads it
through the job's context (rendering it on first read) and coerces it to a
boolean; a true decision ends the job Skipped with no hooks run and the
filesystem untouched, a false decision proceeds to render normally.
Concretely, the rule comparing row with 3 yields Skipped and no output file
for row 5, and for row 2 the job renders normally and writes the output. -/
theorem c7_skip_rule (fuel : Nat) (parse : String → List Seg) (m : RMap) (fs : JobFS) :
    (∀ v m1 n1, mget fuel m "__skip" = (.ok (v, m1), n1) → skipDecision v = .ok true →
      jobRun fuel parse m fs = (.ok (.skipped, fs, []), n1)) ∧
    jobRun 9 parse0 (ctxRow 5) exampleFS = (.ok (.skipped, exampleFS, []), 1) ∧
    jobRun 9 parse0 (ctxRow 2) exampleFS =
      (.ok (.done, ⟨[("tpl.txt", .file tplSrc), ("out.txt", .file "Row 2")]⟩, []), 1) := by
  refine ⟨?_, rfl, rfl⟩
  intro v m1 n1 hg hd
  unfold jobRun readCtx
  rw [hg]
  dsimp only
  rw [hd]

/-- Witness for claim C7's general part at row value 7, which also renders the
skip rule to a truthy boolean and skips. -/
theorem c7_skip_rule_witness :
    jobRun 9 parse0 (ctxRow 7) exampleFS = (.ok (.skipped, exampleFS, []), 1) :=
  (c7_skip_rule 9 parse0 (ctxRow 7) exampleFS).1 (.vbool true) _ 1 rfl rfl

end Jintaro
